import Mathlib

/-!
Shallow embedding of the `ai-safety-monitor` pipeline and storage layer.

Sources embedded:
* `schema.py` — the typed result entities (Prompt, ModerationFlag,
  ClassificationResult, AnswerGeneration, PipelineResult, ModerationResult);
* `monitor/pipeline/pipeline_service.py` — `PipelineService.process_prompts`
  and `PipelineService._build_classification_result`;
* `monitor/storage/models.py` — the stored row shapes;
* `monitor/storage/repository.py` — `save_results`, `complete_run`,
  `record_human_review`, `_serialize_result`, `_serialize_flag`,
  `_serialize_run`.

Python dicts are modelled as association lists preserving insertion order
(a first-match `lookup` mirrors unique-key dict access).  A JSON value that
may be absent or `null` is an `Option`; Python scores are modelled as `Rat`.
`datetime.utcnow()` is modelled by passing the current time explicitly.
-/

/-- Embedding of `PromptMetadata` from `schema.py`: dataset coordinates plus an opaque
attribute map. -/
structure PromptMetadata where
  dataset_id : Option String
  dataset_split : Option String
  attributes : List (String × String)
deriving DecidableEq, Repr

/-- Embedding of `Prompt` from `schema.py`. -/
structure Prompt where
  text : String
  metadata : PromptMetadata
deriving DecidableEq, Repr

/-- Embedding of `ModerationFlag` from `schema.py`: one category verdict. -/
structure ModerationFlag where
  category : String
  score : Rat
  violated : Bool
deriving DecidableEq, Repr

/-- First element of a provider payload's `results` list: may carry a
`flagged` boolean, a `categories` map and a `category_scores` map; each key
may be absent or `null` (`none`). -/
structure RawElement where
  flagged : Option Bool
  categories : Option (List (String × Bool))
  category_scores : Option (List (String × Rat))
deriving DecidableEq, Repr

/-- A raw provider payload: a map that may carry a top-level `results`
list (absent or `null` is `none`). -/
structure RawResponse where
  results : Option (List RawElement)
deriving DecidableEq, Repr

/-- Embedding of `ClassificationResult` from `schema.py`. -/
structure ClassificationResult where
  flagged : Bool
  flags : List ModerationFlag
  raw_response : RawResponse
deriving DecidableEq, Repr

/-- Raw payload returned by the answer-generator capability: a map that may
carry `text` and `model` keys. -/
structure AnswerRaw where
  text : Option String
  model : Option String
deriving DecidableEq, Repr

/-- Embedding of `AnswerGeneration` from `schema.py`. -/
structure AnswerGeneration where
  text : String
  model : String
  raw_response : AnswerRaw
deriving DecidableEq, Repr

/-- Embedding of `PipelineResult` from `schema.py`. -/
structure PipelineResult where
  prompt : Prompt
  input_classification : ClassificationResult
  answer : Option AnswerGeneration
  output_classification : Option ClassificationResult
deriving DecidableEq, Repr

/-- Legacy `ModerationResult` from `schema.py`: input-stage data only. -/
structure ModerationResult where
  prompt : Prompt
  flagged : Bool
  flags : List ModerationFlag
  raw_response : RawResponse
deriving DecidableEq, Repr

/-- Embedding of `dict.get(key, default)` on a score map: first-match lookup with a
default, as in `category_scores.get(category, 0.0)`. -/
def dictGetScore (m : List (String × Rat)) (k : String) (d : Rat) : Rat :=
  match m.lookup k with
  | some v => v
  | none => d

/-- Embedding of `(raw_response.get("results") or [{}])[0]` from
`PipelineService._build_classification_result`: the first element of the
`results` list, or an empty map when the list is absent, `null` or empty. -/
def firstResultPayload (raw : RawResponse) : RawElement :=
  match raw.results with
  | none => ⟨none, none, none⟩
  | some [] => ⟨none, none, none⟩
  | some (e :: _) => e

/-- Embedding of `PipelineService._build_classification_result` from
`pipeline_service.py`: normalize a raw provider payload into a
`ClassificationResult`. -/
def build_classification_result (raw : RawResponse) : ClassificationResult :=
  let result_payload := firstResultPayload raw
  let categories := result_payload.categories.getD []
  let category_scores := result_payload.category_scores.getD []
  { flagged := result_payload.flagged.getD false
    flags := categories.map fun cv =>
      { category := cv.1
        score := dictGetScore category_scores cv.1 0
        violated := cv.2 }
    raw_response := raw }

/-- Configuration of `PipelineService`: the input classifier is required,
the answer generator and output classifier are optional collaborators. -/
structure PipelineConfig where
  input_classifier : String → RawResponse
  answer_generator : Option (String → AnswerRaw)
  output_classifier : Option (String → RawResponse)

/-- The per-prompt body of `PipelineService.process_prompts`: stage 1
(input classification), stage 2 (answer generation, gated on a configured
generator and an unflagged input), stage 3 (output classification, gated on
a configured classifier and a generated answer). -/
def processPrompt (cfg : PipelineConfig) (prompt : Prompt) : PipelineResult :=
  let input_classification := build_classification_result (cfg.input_classifier prompt.text)
  let answer : Option AnswerGeneration :=
    match cfg.answer_generator with
    | some gen =>
        if input_classification.flagged then none
        else
          let answer_raw := gen prompt.text
          some { text := answer_raw.text.getD ""
                 model := answer_raw.model.getD "unknown"
                 raw_response := answer_raw }
    | none => none
  let output_classification : Option ClassificationResult :=
    match cfg.output_classifier, answer with
    | some oc, some a => some (build_classification_result (oc a.text))
    | _, _ => none
  { prompt := prompt
    input_classification := input_classification
    answer := answer
    output_classification := output_classification }

/-- Embedding of `PipelineService.process_prompts`: one result per prompt, in order. -/
def process_prompts (cfg : PipelineConfig) (prompts : List Prompt) : List PipelineResult :=
  prompts.map (processPrompt cfg)

/-! ## Storage layer (`monitor/storage/models.py`, `repository.py`) -/

/-- Embedding of the `ModerationFlagRecord` row from `models.py` (without its DB-assigned id;
a record's flag rows are kept on the result record's `flags` relationship). -/
structure ModerationFlagRecord where
  category : String
  score : Rat
  violated : Bool
  flag_type : String
deriving DecidableEq, Repr

/-- Embedding of the `ModerationResultRecord` row from `models.py`, with its `flags`
relationship inlined as the list of flag rows written for it. -/
structure ModerationResultRecord where
  run_id : Nat
  prompt_text : String
  prompt_metadata : PromptMetadata
  prompt_payload : Prompt
  input_flagged : Bool
  input_raw_response : RawResponse
  answer_text : Option String
  answer_model : Option String
  answer_raw_response : Option AnswerRaw
  output_flagged : Option Bool
  output_raw_response : Option RawResponse
  human_label : Option String
  human_label_type : Option String
  human_notes : Option String
  human_reviewed_at : Option Nat
  flagged : Bool
  raw_response : RawResponse
  flags : List ModerationFlagRecord
deriving DecidableEq, Repr

/-- Embedding of the `ModerationRun` row from `models.py`. -/
structure ModerationRun where
  id : Nat
  created_at : Nat
  completed_at : Option Nat
  dataset_id : String
  dataset_split : String
  model : String
  prompt_limit : Nat
  output_path : Option String
  status : String
  extra_args : List (String × String)
deriving DecidableEq, Repr

/-- The three dispatch branches of `ModerationRepository.save_results`:
a value that `isinstance`-checks as `PipelineResult`; a value that fails the
nominal check but structurally exposes `input_classification` (hasattr); and
a true legacy `ModerationResult`. -/
inductive SaveInput where
  | pipelineNominal (r : PipelineResult)
  | pipelineStructural (r : PipelineResult)
  | legacy (r : ModerationResult)

/-- Per-result body of `ModerationRepository.save_results`: builds the
`ModerationResultRecord` and its flag rows for one result, following the
branch selected by the dispatch rule.  Columns the Python constructor leaves
unset take the model defaults from `models.py` (`None` for nullable columns). -/
def saveOne (run_id : Nat) : SaveInput → ModerationResultRecord
  | .pipelineNominal result =>
    { run_id := run_id
      prompt_text := result.prompt.text
      prompt_metadata := result.prompt.metadata
      prompt_payload := result.prompt
      input_flagged := result.input_classification.flagged
      input_raw_response := result.input_classification.raw_response
      answer_text := result.answer.map AnswerGeneration.text
      answer_model := result.answer.map AnswerGeneration.model
      answer_raw_response := result.answer.map AnswerGeneration.raw_response
      output_flagged := result.output_classification.map ClassificationResult.flagged
      output_raw_response := result.output_classification.map ClassificationResult.raw_response
      human_label := none
      human_label_type := none
      human_notes := none
      human_reviewed_at := none
      flagged := result.input_classification.flagged
      raw_response := result.input_classification.raw_response
      flags :=
        result.input_classification.flags.map
          (fun flag => ModerationFlagRecord.mk flag.category flag.score flag.violated "input") ++
        (match result.output_classification with
         | some oc => oc.flags.map
             (fun flag => ModerationFlagRecord.mk flag.category flag.score flag.violated "output")
         | none => []) }
  | .pipelineStructural result =>
    { run_id := run_id
      prompt_text := result.prompt.text
      prompt_metadata := result.prompt.metadata
      prompt_payload := result.prompt
      input_flagged := result.input_classification.flagged
      input_raw_response := result.input_classification.raw_response
      answer_text := result.answer.map AnswerGeneration.text
      answer_model := result.answer.map AnswerGeneration.model
      answer_raw_response := result.answer.map AnswerGeneration.raw_response
      output_flagged := result.output_classification.map ClassificationResult.flagged
      output_raw_response := result.output_classification.map ClassificationResult.raw_response
      human_label := none
      human_label_type := none
      human_notes := none
      human_reviewed_at := none
      flagged := result.input_classification.flagged
      raw_response := result.input_classification.raw_response
      flags :=
        result.input_classification.flags.map
          (fun flag => ModerationFlagRecord.mk flag.category flag.score flag.violated "input") ++
        (match result.output_classification with
         | some oc => oc.flags.map
             (fun flag => ModerationFlagRecord.mk flag.category flag.score flag.violated "output")
         | none => []) }
  | .legacy result =>
    { run_id := run_id
      prompt_text := result.prompt.text
      prompt_metadata := result.prompt.metadata
      prompt_payload := result.prompt
      input_flagged := result.flagged
      input_raw_response := result.raw_response
      answer_text := none
      answer_model := none
      answer_raw_response := none
      output_flagged := none
      output_raw_response := none
      human_label := none
      human_label_type := none
      human_notes := none
      human_reviewed_at := none
      flagged := result.flagged
      raw_response := result.raw_response
      flags :=
        result.flags.map
          (fun flag => ModerationFlagRecord.mk flag.category flag.score flag.violated "input") }

/-- Embedding of `ModerationRepository.save_results`: one record (with flag rows) per
given result, in order. -/
def save_results (run_id : Nat) (results : List SaveInput) : List ModerationResultRecord :=
  results.map (saveOne run_id)

/-- Embedding of `ModerationRepository.complete_run`: look the run up by primary key; on
a miss log a warning and change nothing, otherwise set `status` and stamp
`completed_at` with the current time. -/
def complete_run : List ModerationRun → Nat → String → Nat → List ModerationRun
  | [], _, _, _ => []
  | run :: rest, run_id, status, now =>
    if run.id == run_id then
      { run with status := status, completed_at := some now } :: rest
    else
      run :: complete_run rest run_id status now

/-- Embedding of `ModerationRepository.record_human_review`: look the result record up by
primary key; on a miss log a warning and return `false` leaving the store
unchanged, otherwise set `human_label`, `human_notes` (`notes or None`:
absent or empty notes store as `none`) and `human_reviewed_at`, and return
`true`. -/
def record_human_review :
    List (Nat × ModerationResultRecord) → Nat → String → Option String → Nat →
      Bool × List (Nat × ModerationResultRecord)
  | [], _, _, _, _ => (false, [])
  | entry :: rest, result_id, label, notes, now =>
    if entry.1 == result_id then
      (true,
        (entry.1,
          { entry.2 with
              human_label := some label
              human_notes :=
                match notes with
                | none => none
                | some s => if s = "" then none else some s
              human_reviewed_at := some now }) :: rest)
    else
      let out := record_human_review rest result_id label notes now
      (out.1, entry :: out.2)

/-- View produced by `ModerationRepository._serialize_flag`. -/
structure FlagView where
  category : String
  score : Rat
  violated : Bool
deriving DecidableEq, Repr

/-- Embedding of `ModerationRepository._serialize_flag`: project a flag row to its
(category, score, violated) view. -/
def serialize_flag (flag : ModerationFlagRecord) : FlagView :=
  { category := flag.category, score := flag.score, violated := flag.violated }

/-- The map returned by `ModerationRepository._serialize_result`. -/
structure ResultView where
  prompt_text : String
  prompt_metadata : PromptMetadata
  prompt_payload : Prompt
  input_flagged : Bool
  input_raw_response : RawResponse
  input_flags : List FlagView
  answer_text : Option String
  answer_model : Option String
  answer_raw_response : Option AnswerRaw
  output_flagged : Option Bool
  output_raw_response : Option RawResponse
  output_flags : List FlagView
  human_label : Option String
  human_label_type : Option String
  human_notes : Option String
  human_reviewed_at : Option Nat
  flagged : Bool
  raw_response : RawResponse
  flags : List FlagView
deriving DecidableEq, Repr

/-- Embedding of `ModerationRepository._serialize_result`: partition the record's flag
rows by `flag_type` into `input_flags` / `output_flags` and expose the
legacy `flags` key as `input_flags`. -/
def serialize_result (result : ModerationResultRecord) : ResultView :=
  let input_flags :=
    (result.flags.filter (fun flag => flag.flag_type == "input")).map serialize_flag
  let output_flags :=
    (result.flags.filter (fun flag => flag.flag_type == "output")).map serialize_flag
  { prompt_text := result.prompt_text
    prompt_metadata := result.prompt_metadata
    prompt_payload := result.prompt_payload
    input_flagged := result.input_flagged
    input_raw_response := result.input_raw_response
    input_flags := input_flags
    answer_text := result.answer_text
    answer_model := result.answer_model
    answer_raw_response := result.answer_raw_response
    output_flagged := result.output_flagged
    output_raw_response := result.output_raw_response
    output_flags := output_flags
    human_label := result.human_label
    human_label_type := result.human_label_type
    human_notes := result.human_notes
    human_reviewed_at := result.human_reviewed_at
    flagged := result.flagged
    raw_response := result.raw_response
    flags := input_flags }

/-- Python truthiness of an optional string column (`None` and `""` are
falsy), as used by the `if result.answer_text` / `if result.human_label`
generator conditions in `_serialize_run`. -/
def optStrTruthy : Option String → Bool
  | none => false
  | some s => !(s == "")

/-- Python truthiness of a nullable boolean column (`None` and `False` are
falsy), as used by `if result.output_flagged` in `_serialize_run`. -/
def optBoolTruthy : Option Bool → Bool
  | none => false
  | some b => b

/-- The aggregate fields of the map returned by
`ModerationRepository._serialize_run`. -/
structure RunView where
  id : Nat
  dataset_id : String
  dataset_split : String
  model : String
  prompt_limit : Nat
  created_at : Nat
  completed_at : Option Nat
  status : String
  output_path : Option String
  extra_args : List (String × String)
  input_flagged_count : Nat
  output_flagged_count : Nat
  flagged_count : Nat
  reviewed_count : Nat
  answers_generated : Nat
deriving DecidableEq, Repr

/-- Embedding of `ModerationRepository._serialize_run` (aggregate part): the run's scalar
columns plus counts computed by scanning `run.results`. -/
def serialize_run (run : ModerationRun) (results : List ModerationResultRecord) : RunView :=
  let input_flagged_count := results.countP (fun result => result.input_flagged)
  let output_flagged_count := results.countP (fun result => optBoolTruthy result.output_flagged)
  let reviewed_count := results.countP (fun result => optStrTruthy result.human_label)
  let answers_generated := results.countP (fun result => optStrTruthy result.answer_text)
  { id := run.id
    dataset_id := run.dataset_id
    dataset_split := run.dataset_split
    model := run.model
    prompt_limit := run.prompt_limit
    created_at := run.created_at
    completed_at := run.completed_at
    status := run.status
    output_path := run.output_path
    extra_args := run.extra_args
    input_flagged_count := input_flagged_count
    output_flagged_count := output_flagged_count
    flagged_count := input_flagged_count
    reviewed_count := reviewed_count
    answers_generated := answers_generated }

/-! ## Concrete fixtures (used to instantiate theorems with hypotheses) -/

/-- A provider payload flagging `toxicity` at score 9/10, as in the spec's
example scenario 2. -/
def flaggedRaw : RawResponse :=
  ⟨some [⟨some true, some [("toxicity", true)], some [("toxicity", mkRat 9 10)]⟩]⟩

/-- A clean provider payload: unflagged, no categories. -/
def cleanRaw : RawResponse := ⟨some [⟨some false, some [], some []⟩]⟩

/-- A payload whose first element has a `categories` map but no
`category_scores` map. -/
def scoresMissingRaw : RawResponse := ⟨some [⟨none, some [("self-harm", true)], none⟩]⟩

/-- A generator capability returning a fixed payload. -/
def fixtureGen : String → AnswerRaw := fun _ => ⟨some "I am fine.", some "m1"⟩

/-- An output-classifier capability returning the clean payload. -/
def fixtureOut : String → RawResponse := fun _ => cleanRaw

/-- Pipeline configuration whose input classifier flags everything. -/
def fixtureCfg : PipelineConfig := ⟨fun _ => flaggedRaw, some fixtureGen, some fixtureOut⟩

/-- Pipeline configuration whose input classifier flags nothing. -/
def fixtureCfgClean : PipelineConfig := ⟨fun _ => cleanRaw, some fixtureGen, some fixtureOut⟩

/-- Fixture prompt. -/
def fixturePrompt : Prompt := ⟨"Hello, how are you?", ⟨none, none, []⟩⟩

/-- A pipeline result carrying one input-stage and one output-stage flag
with differing stage verdicts. -/
def fixtureResult : PipelineResult :=
  { prompt := fixturePrompt
    input_classification := ⟨false, [⟨"a", mkRat 1 2, false⟩], flaggedRaw⟩
    answer := some ⟨"x", "m", ⟨some "x", some "m"⟩⟩
    output_classification := some ⟨true, [⟨"b", mkRat 3 4, true⟩], cleanRaw⟩ }

/-- Fixture run row. -/
def fixtureRun : ModerationRun := ⟨1, 0, none, "d", "s", "m", 10, none, "running", []⟩

/-- A generator capability whose payload lacks both `text` and `model`. -/
def emptyGen : String → AnswerRaw := fun _ => ⟨none, none⟩

/-- Pipeline configuration with a clean input classifier and the empty-payload
generator. -/
def fixtureCfgEmptyGen : PipelineConfig := ⟨fun _ => cleanRaw, some emptyGen, some fixtureOut⟩

/-! ## Theorems -/

/-- Filtering a stage-tagged block of flag rows by `flag_type` keeps the
whole block when the tags match and drops it entirely otherwise. -/
lemma filter_map_flagRecord (l : List ModerationFlag) (t s : String) :
    (l.map (fun f => ModerationFlagRecord.mk f.category f.score f.violated t)).filter
        (fun g => g.flag_type == s) =
      if t == s then
        l.map (fun f => ModerationFlagRecord.mk f.category f.score f.violated t)
      else [] := by
  induction l with
  | nil => cases h : (t == s) <;> simp [h]
  | cons a tl ih => cases h : (t == s) <;> simp_all [List.filter_cons, h]

/-- C1: for every prompt processed by the pipeline orchestrator, if the
input classifier's normalized result has `flagged = true`, the emitted
`PipelineResult` has `answer = none` and `output_classification = none`,
whatever generator / output classifier is configured. -/
theorem flagged_input_yields_null_stages (cfg : PipelineConfig) (prompts : List Prompt) :
    ∀ result ∈ process_prompts cfg prompts,
      result.input_classification.flagged = true →
        result.answer = none ∧ result.output_classification = none := by
  intro result hmem hflag
  simp only [process_prompts, List.mem_map] at hmem
  obtain ⟨p, -, rfl⟩ := hmem
  have hin : (build_classification_result (cfg.input_classifier p.text)).flagged = true := hflag
  cases hgen : cfg.answer_generator <;>
    cases hoc : cfg.output_classifier <;>
      simp [processPrompt, hgen, hoc, hin]

/-- C5: for every prompt whose input classification has `flagged = false`,
when both an answer generator and an output classifier are configured, the
emitted `PipelineResult` has a non-null `answer` and a non-null
`output_classification`. -/
theorem safe_input_generates_answer (cfg : PipelineConfig) (prompt : Prompt)
    (gen : String → AnswerRaw) (oc : String → RawResponse)
    (hg : cfg.answer_generator = some gen)
    (ho : cfg.output_classifier = some oc)
    (hflag : (processPrompt cfg prompt).input_classification.flagged = false) :
    (processPrompt cfg prompt).answer ≠ none ∧
      (processPrompt cfg prompt).output_classification ≠ none := by
  have hin : (build_classification_result (cfg.input_classifier prompt.text)).flagged = false :=
    hflag
  simp [processPrompt, hg, ho, hin]

/-- C4: for a payload whose first `results` element carries `categories` and
`category_scores` maps, normalization builds one `ModerationFlag` per
`categories` key, in iteration order, with score the same-named
`category_scores` entry (0 when missing) and `violated` the category's
boolean; `flagged` is read from the element's `flagged` key (false when
absent), not derived from the flags. -/
theorem build_classification_result_spec (raw : RawResponse)
    (cats : List (String × Bool)) (scores : List (String × Rat))
    (hc : (firstResultPayload raw).categories = some cats)
    (hs : (firstResultPayload raw).category_scores = some scores) :
    (build_classification_result raw).flags =
      cats.map (fun cv => ModerationFlag.mk cv.1 ((scores.lookup cv.1).getD 0) cv.2) ∧
    (build_classification_result raw).flagged = (firstResultPayload raw).flagged.getD false := by
  constructor
  · simp only [build_classification_result, hc, hs, Option.getD_some]
    refine List.map_congr_left fun cv _ => ?_
    simp [dictGetScore]
    cases scores.lookup cv.1 <;> rfl
  · rfl

/-- C3: records written by `save_results` from a `PipelineResult`, through
either the nominal (`isinstance`) or the structural (`hasattr`) dispatch
branch, carry the input stage's `flagged` and `raw_response` in the legacy
columns. -/
theorem legacy_alias_columns (run_id : Nat) (result : PipelineResult) :
    (saveOne run_id (SaveInput.pipelineNominal result)).flagged
        = result.input_classification.flagged ∧
    (saveOne run_id (SaveInput.pipelineNominal result)).raw_response
        = result.input_classification.raw_response ∧
    (saveOne run_id (SaveInput.pipelineStructural result)).flagged
        = result.input_classification.flagged ∧
    (saveOne run_id (SaveInput.pipelineStructural result)).raw_response
        = result.input_classification.raw_response :=
  ⟨rfl, rfl, rfl, rfl⟩

/-- C1 witness: a concrete flagging configuration exercising
`flagged_input_yields_null_stages`. -/
theorem flagged_input_yields_null_stages_witness :
    processPrompt fixtureCfg fixturePrompt ∈ process_prompts fixtureCfg [fixturePrompt] ∧
    (processPrompt fixtureCfg fixturePrompt).input_classification.flagged = true ∧
    ((processPrompt fixtureCfg fixturePrompt).answer = none ∧
      (processPrompt fixtureCfg fixturePrompt).output_classification = none) :=
  ⟨by simp [process_prompts], by decide,
    flagged_input_yields_null_stages fixtureCfg [fixturePrompt]
      (processPrompt fixtureCfg fixturePrompt) (by simp [process_prompts]) (by decide)⟩

/-- C5 witness: a concrete clean-input configuration exercising
`safe_input_generates_answer`. -/
theorem safe_input_generates_answer_witness :
    fixtureCfgClean.answer_generator = some fixtureGen ∧
    fixtureCfgClean.output_classifier = some fixtureOut ∧
    (processPrompt fixtureCfgClean fixturePrompt).input_classification.flagged = false ∧
    ((processPrompt fixtureCfgClean fixturePrompt).answer ≠ none ∧
      (processPrompt fixtureCfgClean fixturePrompt).output_classification ≠ none) :=
  ⟨rfl, rfl, by decide,
    safe_input_generates_answer fixtureCfgClean fixturePrompt fixtureGen fixtureOut rfl rfl
      (by decide)⟩

/-- C4 witness: the toxicity payload exercising
`build_classification_result_spec`. -/
theorem build_classification_result_spec_witness :
    (firstResultPayload flaggedRaw).categories = some [("toxicity", true)] ∧
    (firstResultPayload flaggedRaw).category_scores = some [("toxicity", mkRat 9 10)] ∧
    ((build_classification_result flaggedRaw).flags =
        [("toxicity", true)].map
          (fun cv =>
            ModerationFlag.mk cv.1 (([("toxicity", mkRat 9 10)].lookup cv.1).getD 0) cv.2) ∧
      (build_classification_result flaggedRaw).flagged =
        (firstResultPayload flaggedRaw).flagged.getD false) :=
  ⟨rfl, rfl,
    build_classification_result_spec flaggedRaw [("toxicity", true)] [("toxicity", mkRat 9 10)]
      rfl rfl⟩

/-- C2: saving a `PipelineResult` and serializing the stored record
reproduces `input_flagged`, `answer_text`, `output_flagged`, and the exact
multiset of (category, score, violated) pairs per stage — input-stage flags
in `input_flags`, output-stage flags in `output_flags`. -/
theorem save_serialize_roundtrip (run_id : Nat) (result : PipelineResult) :
    (serialize_result (saveOne run_id (SaveInput.pipelineNominal result))).input_flagged
        = result.input_classification.flagged ∧
    (serialize_result (saveOne run_id (SaveInput.pipelineNominal result))).answer_text
        = result.answer.map AnswerGeneration.text ∧
    (serialize_result (saveOne run_id (SaveInput.pipelineNominal result))).output_flagged
        = result.output_classification.map ClassificationResult.flagged ∧
    ((serialize_result (saveOne run_id (SaveInput.pipelineNominal result))).input_flags
          : Multiset FlagView)
        = ↑(result.input_classification.flags.map
            (fun f => FlagView.mk f.category f.score f.violated)) ∧
    ((serialize_result (saveOne run_id (SaveInput.pipelineNominal result))).output_flags
          : Multiset FlagView)
        = ↑(((result.output_classification.map ClassificationResult.flags).getD []).map
            (fun f => FlagView.mk f.category f.score f.violated)) := by
  refine ⟨rfl, rfl, rfl, ?_, ?_⟩ <;>
    cases hoc : result.output_classification <;>
      simp [serialize_result, saveOne, hoc, List.filter_append, filter_map_flagRecord,
        List.map_map, serialize_flag, Function.comp] <;>
      exact List.Perm.refl _

/-- C6 counterexample: a payload whose first `results` element has a
`categories` map but no `category_scores` map is among the malformed shapes
the claim covers, yet normalization builds a non-empty flags list (with the
score defaulted to 0), refuting "producing an empty flags list" for that
shape. -/
theorem malformed_scores_counterexample :
    (firstResultPayload scoresMissingRaw).category_scores = none ∧
    (build_classification_result scoresMissingRaw).flags ≠ [] ∧
    (build_classification_result scoresMissingRaw).flags = [ModerationFlag.mk "self-harm" 0 true] :=
  ⟨rfl, by decide, by decide⟩

/-- C6 (amended): for a payload missing the top-level `results` list, with
an empty `results` list, or whose first element lacks the `categories` map,
normalization substitutes default empty maps and produces an empty flags
list with `flagged = false` when the `flagged` key is also absent.  (When
only `category_scores` is missing, one flag per `categories` key is still
built, with score defaulted to 0.) -/
theorem malformed_payload_defaults (raw : RawResponse)
    (h : raw.results = none ∨ raw.results = some [] ∨
      (firstResultPayload raw).categories = none)
    (hf : (firstResultPayload raw).flagged = none) :
    (build_classification_result raw).flags = [] ∧
    (build_classification_result raw).flagged = false := by
  have hc : (firstResultPayload raw).categories = none := by
    rcases h with h | h | h
    · simp [firstResultPayload, h]
    · simp [firstResultPayload, h]
    · exact h
  exact ⟨by simp [build_classification_result, hc], by simp [build_classification_result, hf]⟩

/-- C6 witness: the empty payload exercising `malformed_payload_defaults`. -/
theorem malformed_payload_defaults_witness :
    ((⟨none⟩ : RawResponse).results = none ∨ (⟨none⟩ : RawResponse).results = some [] ∨
      (firstResultPayload ⟨none⟩).categories = none) ∧
    (firstResultPayload (⟨none⟩ : RawResponse)).flagged = none ∧
    ((build_classification_result ⟨none⟩).flags = [] ∧
      (build_classification_result ⟨none⟩).flagged = false) :=
  ⟨Or.inl rfl, rfl, malformed_payload_defaults ⟨none⟩ (Or.inl rfl) rfl⟩

/-- Filtering by the `input` and `output` tags partitions a flag-row list
whose tags all lie in `{input, output}`. -/
lemma filter_type_length (l : List ModerationFlagRecord)
    (h : ∀ f ∈ l, f.flag_type = "input" ∨ f.flag_type = "output") :
    (l.filter (fun f => f.flag_type == "input")).length
        + (l.filter (fun f => f.flag_type == "output")).length = l.length := by
  induction l with
  | nil => rfl
  | cons a tl ih =>
    have htl := ih fun f hf => h f (List.mem_cons_of_mem a hf)
    rcases h a (List.mem_cons_self a tl) with ha | ha <;>
      simp [List.filter_cons, ha] <;> omega

/-- C7: the serialized read view splits a stored record's flag rows into
`input_flags` and `output_flags` by `flag_type` (a partition when every tag
is `input` or `output`), and the legacy `flags` key equals `input_flags`,
never `output_flags`. -/
theorem serialize_result_partitions (record : ModerationResultRecord)
    (h : ∀ f ∈ record.flags, f.flag_type = "input" ∨ f.flag_type = "output") :
    (serialize_result record).flags = (serialize_result record).input_flags ∧
    (serialize_result record).input_flags
        = (record.flags.filter (fun f => f.flag_type == "input")).map serialize_flag ∧
    (serialize_result record).output_flags
        = (record.flags.filter (fun f => f.flag_type == "output")).map serialize_flag ∧
    (serialize_result record).input_flags.length
        + (serialize_result record).output_flags.length = record.flags.length := by
  refine ⟨rfl, rfl, rfl, ?_⟩
  simp only [serialize_result, List.length_map]
  exact filter_type_length record.flags h

/-- C7 witness: a record holding both an input-stage and an output-stage
flag row, exercising `serialize_result_partitions`. -/
theorem serialize_result_partitions_witness :
    (∀ f ∈ (saveOne 7 (SaveInput.pipelineNominal fixtureResult)).flags,
      f.flag_type = "input" ∨ f.flag_type = "output") ∧
    ((serialize_result (saveOne 7 (SaveInput.pipelineNominal fixtureResult))).flags
        = (serialize_result (saveOne 7 (SaveInput.pipelineNominal fixtureResult))).input_flags ∧
      (serialize_result (saveOne 7 (SaveInput.pipelineNominal fixtureResult))).input_flags
        = ((saveOne 7 (SaveInput.pipelineNominal fixtureResult)).flags.filter
            (fun f => f.flag_type == "input")).map serialize_flag ∧
      (serialize_result (saveOne 7 (SaveInput.pipelineNominal fixtureResult))).output_flags
        = ((saveOne 7 (SaveInput.pipelineNominal fixtureResult)).flags.filter
            (fun f => f.flag_type == "output")).map serialize_flag ∧
      (serialize_result (saveOne 7 (SaveInput.pipelineNominal fixtureResult))).input_flags.length
        + (serialize_result (saveOne 7 (SaveInput.pipelineNominal fixtureResult))).output_flags.length
        = (saveOne 7 (SaveInput.pipelineNominal fixtureResult)).flags.length) :=
  ⟨by decide, serialize_result_partitions (saveOne 7 (SaveInput.pipelineNominal fixtureResult))
      (by decide)⟩

/-- C8 counterexample: completing an existing run twice is not a no-op —
the second call rewrites the store and advances `completed_at` from the
first call's timestamp (5) to its own (7). -/
theorem complete_run_twice_advances :
    complete_run (complete_run [fixtureRun] 1 "completed" 5) 1 "completed" 7
        ≠ complete_run [fixtureRun] 1 "completed" 5 ∧
    ((complete_run (complete_run [fixtureRun] 1 "completed" 5) 1 "completed" 7).find?
        (fun run => run.id == 1)).map ModerationRun.completed_at = some (some 7) :=
  ⟨by decide, by decide⟩

/-- C8 (amended): calling `complete_run` twice on the same existing run id
raises no error but is not a no-op: each call overwrites the run's `status`
and stamps `completed_at` with the then-current time, so the second call
advances `completed_at` to its own timestamp; the warning no-op applies only
to a missing run id. -/
theorem complete_run_overwrites (store : List ModerationRun) (run_id : Nat)
    (st1 st2 : String) (t1 t2 : Nat)
    (h : (store.find? (fun run => run.id == run_id)).isSome = true) :
    ((complete_run (complete_run store run_id st1 t1) run_id st2 t2).find?
        (fun run => run.id == run_id)).map
      (fun run => (run.status, run.completed_at)) = some (st2, some t2) := by
  induction store with
  | nil => simp [List.find?] at h
  | cons a tl ih =>
    by_cases ha : (a.id == run_id) = true
    · simp [complete_run, ha, List.find?]
    · have ha' : (a.id == run_id) = false := by simpa using ha
      have h' : (tl.find? (fun run => run.id == run_id)).isSome = true := by
        simpa [List.find?_cons, ha'] using h
      simpa [complete_run, ha', List.find?_cons] using ih h'

/-- C8 witness: the fixture run exercising `complete_run_overwrites`. -/
theorem complete_run_overwrites_witness :
    (([fixtureRun].find? (fun run => run.id == 1)).isSome = true) ∧
    ((complete_run (complete_run [fixtureRun] 1 "completed" 5) 1 "completed" 7).find?
        (fun run => run.id == 1)).map
      (fun run => (run.status, run.completed_at)) = some ("completed", some 7) :=
  ⟨by decide, complete_run_overwrites [fixtureRun] 1 "completed" "completed" 5 7 (by decide)⟩

set_option maxRecDepth 4000 in
/-- C9: `record_human_review` on an existing record returns `true` and
rewrites only that record's `human_label`, `human_notes` (absent or empty
notes stored as `none`) and `human_reviewed_at` fields — its flag rows and
every other field, and every other record, are untouched; on a missing
record id it returns `false` and leaves the store unchanged. -/
theorem record_human_review_spec (store : List (Nat × ModerationResultRecord))
    (result_id : Nat) (label : String) (notes : Option String) (now : Nat) :
    match store.lookup result_id with
    | some record =>
        (record_human_review store result_id label notes now).1 = true ∧
        ∀ k, (record_human_review store result_id label notes now).2.lookup k =
          if k = result_id then
            some { record with
                     human_label := some label
                     human_notes := match notes with
                                    | none => none
                                    | some s => if s = "" then none else some s
                     human_reviewed_at := some now }
          else store.lookup k
    | none =>
        (record_human_review store result_id label notes now).1 = false ∧
        (record_human_review store result_id label notes now).2 = store := by
  induction store with
  | nil => exact ⟨rfl, rfl⟩
  | cons a tl ih =>
    by_cases ha : a.1 = result_id
    · have hab : (a.1 == result_id) = true := by simpa using ha
      have hba : (result_id == a.1) = true := by simpa using ha.symm
      have hl : List.lookup result_id (a :: tl) = some a.2 := by
        simp [List.lookup, hba]
      rw [hl]
      refine ⟨by simp [record_human_review, hab], fun k => ?_⟩
      by_cases hk : k = result_id
      · have hkb : (k == result_id) = true := by simpa using hk
        have hka : (k == a.1) = true := by simpa [ha] using hkb
        simp [record_human_review, hab, List.lookup, hk, hkb, hka, ha]
      · have hkb : (k == result_id) = false := by simpa using hk
        have hka : (k == a.1) = false := by simpa [ha] using hkb
        simp [record_human_review, hab, List.lookup, hk, hkb, hka, ha]
    · have hab : (a.1 == result_id) = false := by simpa using ha
      have hba : (result_id == a.1) = false := by simpa using Ne.symm ha
      have hl : List.lookup result_id (a :: tl) = List.lookup result_id tl := by
        simp [List.lookup, hba]
      rw [hl]
      cases htl : List.lookup result_id tl with
      | some record =>
        rw [htl] at ih
        refine ⟨by simp [record_human_review, hab, ih.1], fun k => ?_⟩
        by_cases hk : k = a.1
        · have hk2 : ¬ k = result_id := fun hh => ha (hk.symm.trans hh)
          have hka : (k == a.1) = true := by simpa using hk
          simp [record_human_review, hab, List.lookup, hk2, hka]
        · have hka : (k == a.1) = false := by simpa using hk
          have := ih.2 k
          simp [record_human_review, hab, List.lookup, hka, this]
      | none =>
        rw [htl] at ih
        exact ⟨by simp [record_human_review, hab, ih.1],
          by simp [record_human_review, hab, ih.2]⟩

/-- Python truthiness of an optional string column is "non-null and
non-empty". -/
lemma optStrTruthy_eq_decide (o : Option String) :
    optStrTruthy o = decide (o ≠ none ∧ o ≠ some "") := by
  cases o with
  | none => rfl
  | some s => by_cases h : s = "" <;> simp [optStrTruthy, h]

/-- C10: a serialized run view counts in `answers_generated` exactly the
result records whose `answer_text` is non-null and non-empty; a record saved
from a pipeline result whose generator payload lacked the `text` key stores
`answer_text = some ""` (with `answer_model = some "unknown"` when the
`model` key is also absent) and is therefore not counted. -/
theorem answers_generated_counts (run : ModerationRun)
    (results : List ModerationResultRecord) (run_id : Nat) (cfg : PipelineConfig)
    (prompt : Prompt) (gen : String → AnswerRaw)
    (hg : cfg.answer_generator = some gen)
    (ht : (gen prompt.text).text = none)
    (hm : (gen prompt.text).model = none)
    (hflag : (processPrompt cfg prompt).input_classification.flagged = false) :
    (serialize_run run results).answers_generated
        = (results.filter
            (fun r => decide (r.answer_text ≠ none ∧ r.answer_text ≠ some ""))).length ∧
    (saveOne run_id (SaveInput.pipelineNominal (processPrompt cfg prompt))).answer_text
        = some "" ∧
    (saveOne run_id (SaveInput.pipelineNominal (processPrompt cfg prompt))).answer_model
        = some "unknown" ∧
    (serialize_run run
        [saveOne run_id (SaveInput.pipelineNominal (processPrompt cfg prompt))]).answers_generated
        = 0 := by
  have hin : (build_classification_result (cfg.input_classifier prompt.text)).flagged = false :=
    hflag
  have hans : (processPrompt cfg prompt).answer = some ⟨"", "unknown", gen prompt.text⟩ := by
    simp [processPrompt, hg, hin, ht, hm]
  have htext :
      (saveOne run_id (SaveInput.pipelineNominal (processPrompt cfg prompt))).answer_text
        = some "" := by
    simp [saveOne, hans]
  refine ⟨?_, htext, ?_, ?_⟩
  · show results.countP (fun r => optStrTruthy r.answer_text) = _
    rw [List.countP_eq_length_filter]
    congr 1
    exact List.filter_congr fun r _ => optStrTruthy_eq_decide r.answer_text
  · simp [saveOne, hans]
  · show ([saveOne run_id (SaveInput.pipelineNominal (processPrompt cfg prompt))].countP
        (fun r => optStrTruthy r.answer_text)) = 0
    simp [List.countP_cons, htext, optStrTruthy]

/-- C10 witness: the empty-payload generator configuration exercising
`answers_generated_counts`. -/
theorem answers_generated_counts_witness :
    fixtureCfgEmptyGen.answer_generator = some emptyGen ∧
    (emptyGen fixturePrompt.text).text = none ∧
    (emptyGen fixturePrompt.text).model = none ∧
    (processPrompt fixtureCfgEmptyGen fixturePrompt).input_classification.flagged = false ∧
    ((serialize_run fixtureRun []).answers_generated
        = (([] : List ModerationResultRecord).filter
            (fun r => decide (r.answer_text ≠ none ∧ r.answer_text ≠ some ""))).length ∧
      (saveOne 7 (SaveInput.pipelineNominal
          (processPrompt fixtureCfgEmptyGen fixturePrompt))).answer_text = some "" ∧
      (saveOne 7 (SaveInput.pipelineNominal
          (processPrompt fixtureCfgEmptyGen fixturePrompt))).answer_model = some "unknown" ∧
      (serialize_run fixtureRun
          [saveOne 7 (SaveInput.pipelineNominal
            (processPrompt fixtureCfgEmptyGen fixturePrompt))]).answers_generated = 0) :=
  ⟨rfl, rfl, rfl, by decide,
    answers_generated_counts fixtureRun [] 7 fixtureCfgEmptyGen fixturePrompt emptyGen
      rfl rfl rfl (by decide)⟩
